import Mathlib

/-!
# Verification of the SSRStyles storefront backend (src/index.js)

Shallow embedding of the authentication + cart flow and the product catalog
endpoints of `src/index.js`, with theorems settling the spec's claims.

Carts (`cartData`) are JS objects mapping item ids to counts; we embed them as
association lists preserving insertion order, matching JS object key order for
integer-like keys created in order. The account and product stores are lists in
insertion order (Mongo natural order for these append-only-plus-delete flows).
-/

namespace SSRStyles

/-! ## Cart data: association list with JS-object semantics -/

/-- `cart[k]` : JS property read, `none` when the key is absent (undefined). -/
def lookup : List (Nat × Int) → Nat → Option Int
  | [], _ => none
  | (k', v) :: rest, k => if k' = k then some v else lookup rest k

/-- `cart[k] = v` : JS property write; replaces in place when present,
appends when absent (JS objects keep insertion order of keys). -/
def setEntry : List (Nat × Int) → Nat → Int → List (Nat × Int)
  | [], k, v => [(k, v)]
  | (k', v') :: rest, k, v =>
    if k' = k then (k, v) :: rest else (k', v') :: setEntry rest k v

/-- JS truthiness test `!cart[k]` : true when the key is absent (`!undefined`)
or its value is `0` (`!0`). -/
def jsFalsy : Option Int → Bool
  | none => true
  | some v => v == 0

/-- JS comparison `cart[k] <= 0` : `undefined <= 0` is `false` in JS. -/
def jsLeZero : Option Int → Bool
  | none => false
  | some v => v ≤ 0

/-! ## Credential codec

The source calls `CryptoJS.AES.encrypt(plaintext, key).toString()` (line 195)
and `CryptoJS.AES.decrypt(stored, key).toString(CryptoJS.enc.Utf8)`
(lines 233-234). -/

/-- The code points of a string, the byte-level view the codec operates on. -/
def strBytes (s : String) : List Nat := s.data.map Char.toNat

/-- Rebuild a string from code points. -/
def bytesStr (l : List Nat) : String := ⟨l.map Char.ofNat⟩

/-- Keystream derived from the key by cycling its code points. -/
def keyByte (key : List Nat) (i : Nat) : Nat :=
  match key with
  | [] => 0
  | k => k.getD (i % k.length) 0

/-- Modelled from the spec: the `CryptoJS.AES` cipher is library code not in
`src/`; per §4.1 it is a "symmetric reversible transform (not a one-way hash)
using a single shared key", modelled here as a keyed stream transform adding
the cycled key to each code point. -/
def obfuscateBytes (key : List Nat) (i : Nat) : List Nat → List Nat
  | [] => []
  | b :: rest => (b + keyByte key i) :: obfuscateBytes key (i + 1) rest

/-- Modelled from the spec: inverse transform of `obfuscateBytes`,
standing for `CryptoJS.AES.decrypt` (library code not in `src/`). -/
def recoverBytes (key : List Nat) (i : Nat) : List Nat → List Nat
  | [] => []
  | b :: rest => (b - keyByte key i) :: recoverBytes key (i + 1) rest

/-- `CryptoJS.AES.encrypt(plaintext, key).toString()` — the stored ciphertext,
kept as a code-point list. -/
def obfuscate (plaintext key : String) : List Nat :=
  obfuscateBytes (strBytes key) 0 (strBytes plaintext)

/-- `CryptoJS.AES.decrypt(stored, key).toString(CryptoJS.enc.Utf8)`. -/
def recover (stored : List Nat) (key : String) : String :=
  bytesStr (recoverBytes (strBytes key) 0 stored)

/-! ## Session tokens

The source calls `jwt.sign({ userId }, 'secret', { expiresIn: '1h' })`
(lines 209, 240) and `jwt.verify(token, 'secret')` (line 261). -/

/-- A decoded JWT: payload (`userId`, issued-at, expiry) plus signature. -/
structure Token where
  userId : Nat
  iat : Nat
  exp : Nat
  sig : Nat
  deriving Repr, DecidableEq

/-- Modelled from the spec: the HMAC used by `jsonwebtoken` is library code not
in `src/`; modelled as a deterministic keyed checksum of the payload. -/
def signature (key : String) (userId iat exp : Nat) : Nat :=
  ((strBytes key).foldl (fun a b => (a * 131 + b) % 4294967296) 7 * 1000003
    + userId * 8191 + iat * 127 + exp) % 4294967296

/-- `jwt.sign({ userId }, key, { expiresIn: '1h' })` at time `now` (seconds):
per §4.2 the token binds the account id and expires exactly 1 hour (3600 s)
after issuance. -/
def jwtSign (key : String) (userId now : Nat) : Token :=
  { userId := userId, iat := now, exp := now + 3600,
    sig := signature key userId now (now + 3600) }

/-- Verification failures per §4.2. -/
inductive AuthError where
  | missing
  | invalid
  | expired
  deriving Repr, DecidableEq

/-- Modelled from the spec: `jwt.verify(token, key)` at time `now` is library
code not in `src/`; per §4.2 it fails `invalid` when the signature does not
validate and `expired` once past the expiry boundary, else yields the payload. -/
def jwtVerify (key : String) (tok : Token) (now : Nat) : Except AuthError Nat :=
  if tok.sig = signature key tok.userId tok.iat tok.exp then
    if now < tok.exp then .ok tok.userId else .error .expired
  else .error .invalid

/-! ## Accounts -/

/-- The process-wide configuration loaded at startup from `.env`
(lines 26-27: `jwtSecret`, `encryptionSecret`). -/
structure EnvConfig where
  JWT_SECRET : String
  ENCRYPTION_SECRET : String
  deriving Repr, DecidableEq

/-- A `User` document (schema at lines 155-174); `id` models the Mongo `_id`. -/
structure Account where
  id : Nat
  name : String
  email : String
  password : List Nat
  cartData : List (Nat × Int)
  deriving Repr, DecidableEq

/-- The cart seeded at signup: `for (let i = 0; i < 100; i++) cart[i] = 0;`
(lines 190-192). -/
def seedCart : List (Nat × Int) := (List.range 100).map fun i => (i, 0)

/-- Success payload of `/signup` and `/login`: `{ success, token, cartData }`. -/
structure AuthSuccess where
  token : Token
  cartData : List (Nat × Int)
  deriving Repr, DecidableEq

/-- `/signup` handler (lines 179-221). `env` is the ambient configuration in
scope at the handler; note the source passes the literals `"Secret key"`
(line 195) and `'secret'` (line 209) rather than `env`'s secrets.
Returns the updated store together with the response. -/
def signup (env : EnvConfig) (store : List Account)
    (name email password : String) (now : Nat) :
    Except String (List Account × AuthSuccess) :=
  if store.any fun a => a.email == email then
    .error "Email is already registered!"
  else
    let cart := seedCart
    let encryptedPassword := obfuscate password "Secret key"
    let newUser : Account :=
      { id := store.length, name := name, email := email,
        password := encryptedPassword, cartData := cart }
    let token := jwtSign "secret" newUser.id now
    .ok (store ++ [newUser], { token := token, cartData := newUser.cartData })

/-- The persisted account store after a `/signup` request: unchanged when the
handler returns an error before `newUser.save()`. -/
def storeAfterSignup (env : EnvConfig) (store : List Account)
    (name email password : String) (now : Nat) : List Account :=
  match signup env store name email password now with
  | .ok (s, _) => s
  | .error _ => store

/-- `/login` handler (lines 224-252): find by email, decrypt the stored
password with the literal `'Secret key'` (line 233), compare, issue a token
signed with the literal `'secret'` (line 240). -/
def login (env : EnvConfig) (store : List Account)
    (email password : String) (now : Nat) : Except String AuthSuccess :=
  match store.find? fun a => a.email == email with
  | none => .error "User not found"
  | some user =>
    if recover user.password "Secret key" ≠ password then
      .error "Incorrect password"
    else
      .ok { token := jwtSign "secret" user.id now, cartData := user.cartData }

/-- `fetchUser` middleware (lines 255-268): missing header and any
`jwt.verify` failure are surfaced identically as a 401 with the same message;
the literal `'secret'` (line 261) is used, not `env.JWT_SECRET`. -/
def fetchUser (env : EnvConfig) (header : Option Token) (now : Nat) :
    Except String Nat :=
  match header with
  | none => .error "Please authenticate using a valid token"
  | some tok =>
    match jwtVerify "secret" tok now with
    | .ok userId => .ok userId
    | .error _ => .error "Please authenticate using a valid token"

/-! ## Cart mutators -/

/-- `/addtocart` core (lines 285-294): `if (!cartData[itemId])` set it to `1`,
else `cartData[itemId] += 1`; the whole cart is then persisted. -/
def addToCart (cart : List (Nat × Int)) (itemId : Nat) : List (Nat × Int) :=
  if jsFalsy (lookup cart itemId) then
    setEntry cart itemId 1
  else
    setEntry cart itemId ((lookup cart itemId).getD 0 + 1)

/-- `/removefromcart` core (lines 319-328): error 400 `"Item not found in
cart"` when `!cartData[itemId] || cartData[itemId] <= 0`, else decrement and
persist. -/
def removeFromCart (cart : List (Nat × Int)) (itemId : Nat) :
    Except String (List (Nat × Int)) :=
  if jsFalsy (lookup cart itemId) || jsLeZero (lookup cart itemId) then
    .error "Item not found in cart"
  else
    .ok (setEntry cart itemId ((lookup cart itemId).getD 0 - 1))

/-- The persisted cart after a `/removefromcart` request: the handler returns
before any write when it errors, so the cart is unchanged then. -/
def cartAfterRemove (cart : List (Nat × Int)) (itemId : Nat) :
    List (Nat × Int) :=
  match removeFromCart cart itemId with
  | .ok c => c
  | .error _ => cart

/-! ## Product catalog -/

/-- A `Product` document (schema at lines 61-94). -/
structure Product where
  id : Int
  name : String
  image : String
  category : String
  new_price : Int
  old_price : Int
  date : Nat
  available : Bool
  deriving Repr, DecidableEq

/-- Request body of `/addproduct`. -/
structure ProductBody where
  name : String
  image : String
  category : String
  new_price : Int
  old_price : Int
  deriving Repr, DecidableEq

/-- Line 113: `product.length > 0 ? product[product.length - 1].id + 1 : 1`. -/
def nextId (store : List Product) : Int :=
  match store.getLast? with
  | some p => p.id + 1
  | none => 1

/-- `/addproduct` handler (lines 110-136): assigns `nextId` and appends. -/
def addProduct (store : List Product) (body : ProductBody) (now : Nat) :
    List Product :=
  store ++ [{ id := nextId store, name := body.name, image := body.image,
              category := body.category, new_price := body.new_price,
              old_price := body.old_price, date := now, available := true }]

/-- Response of `/removeproduct`: `res.json({ success: true })` (line 147). -/
structure RemoveResponse where
  success : Bool
  deriving Repr, DecidableEq

/-- `/removeproduct` handler (lines 139-152):
`Product.findOneAndDelete({ id })` deletes the first match (a no-op when none
matches) and the response is `{ success: true }` unconditionally. -/
def removeProduct (store : List Product) (pid : Int) :
    List Product × RemoveResponse :=
  (store.eraseP (fun q => q.id == pid), { success := true })

/-- `max(ids of existing products)` (0 for an empty catalog). -/
def maxId (store : List Product) : Int :=
  store.foldr (fun p m => max p.id m) 0

/-- Catalog states reachable through the repository's own endpoints:
products are only ever created by `/addproduct` and removed by
`/removeproduct`, starting from an empty collection. -/
inductive CatalogReachable : List Product → Prop where
  | nil : CatalogReachable []
  | add (store : List Product) (body : ProductBody) (now : Nat) :
      CatalogReachable store → CatalogReachable (addProduct store body now)
  | remove (store : List Product) (pid : Int) :
      CatalogReachable store → CatalogReachable (removeProduct store pid).1

/-! ## Helper lemmas -/

theorem recoverBytes_obfuscateBytes (key : List Nat) :
    ∀ (i : Nat) (bs : List Nat), recoverBytes key i (obfuscateBytes key i bs) = bs
  | _, [] => rfl
  | i, b :: rest => by
    simp only [obfuscateBytes, recoverBytes, Nat.add_sub_cancel,
      recoverBytes_obfuscateBytes key (i + 1) rest]

theorem recover_obfuscate (p key : String) : recover (obfuscate p key) key = p := by
  unfold recover obfuscate
  rw [recoverBytes_obfuscateBytes]
  unfold bytesStr strBytes
  rw [List.map_map]
  have hmap : p.data.map (Char.ofNat ∘ Char.toNat) = p.data := by
    simp [Function.comp_def, Char.ofNat_toNat]
  rw [hmap]

theorem lookup_setEntry_self :
    ∀ (cart : List (Nat × Int)) (k : Nat) (v : Int),
      lookup (setEntry cart k v) k = some v
  | [], k, v => by simp [setEntry, lookup]
  | (k', v') :: rest, k, v => by
    by_cases h : k' = k
    · simp [setEntry, lookup, h]
    · simp only [setEntry, lookup, if_neg h]
      exact lookup_setEntry_self rest k v

theorem lookup_setEntry_ne :
    ∀ (cart : List (Nat × Int)) (k k' : Nat) (v : Int), k' ≠ k →
      lookup (setEntry cart k v) k' = lookup cart k'
  | [], k, k', v, h => by simp [setEntry, lookup, Ne.symm h]
  | (k₀, v₀) :: rest, k, k', v, h => by
    by_cases h₀ : k₀ = k
    · subst h₀
      simp [setEntry, lookup, Ne.symm h]
    · simp only [setEntry, lookup, if_neg h₀]
      by_cases hk : k₀ = k'
      · simp [hk]
      · simp only [if_neg hk]
        exact lookup_setEntry_ne rest k k' v h

/-! ## Claim theorems -/

/-- C1: for every plaintext password `p` and shared key, decrypting the stored
obfuscated password with the same key yields exactly the original plaintext:
`recover(obfuscate(p, key), key) = p`. -/
theorem obfuscate_recover_roundtrip (p key : String) :
    recover (obfuscate p key) key = p :=
  recover_obfuscate p key

/-- C4: `addToCart` sets the persisted entry for `itemId` to its previous
count plus one, an absent entry counting as 0 (so the key is created with
value 1 when absent). -/
theorem addToCart_sets_succ (cart : List (Nat × Int)) (itemId : Nat) :
    lookup (addToCart cart itemId) itemId
      = some ((lookup cart itemId).getD 0 + 1) := by
  unfold addToCart
  cases h : lookup cart itemId with
  | none => simp [jsFalsy, h, lookup_setEntry_self]
  | some v =>
    by_cases hv : v = 0 <;>
      simp [jsFalsy, h, hv, lookup_setEntry_self]

/-- The two JS truthiness tests of line 320 amount to `cart[itemId] ≤ 0`
with an absent entry read as 0. -/
theorem removeFromCart_eq (cart : List (Nat × Int)) (itemId : Nat) :
    removeFromCart cart itemId =
      if (lookup cart itemId).getD 0 ≤ 0 then .error "Item not found in cart"
      else .ok (setEntry cart itemId ((lookup cart itemId).getD 0 - 1)) := by
  unfold removeFromCart
  cases h : lookup cart itemId with
  | none => simp [jsFalsy, jsLeZero]
  | some v =>
    by_cases hv : v ≤ 0
    · simp [jsFalsy, jsLeZero, hv]
    · have hne : v ≠ 0 := by omega
      simp [jsFalsy, jsLeZero, hv, hne]

/-- C5: `removeFromCart` fails with `"Item not found in cart"` exactly when
the entry is absent or ≤ 0; on failure the persisted cart is unchanged;
otherwise it subtracts one from the entry and persists the result. -/
theorem removeFromCart_spec (cart : List (Nat × Int)) (itemId : Nat) :
    (removeFromCart cart itemId = .error "Item not found in cart"
        ↔ (lookup cart itemId).getD 0 ≤ 0) ∧
    ((lookup cart itemId).getD 0 ≤ 0 → cartAfterRemove cart itemId = cart) ∧
    (∀ v : Int, lookup cart itemId = some v → 0 < v →
      removeFromCart cart itemId = .ok (setEntry cart itemId (v - 1))) := by
  by_cases hle : (lookup cart itemId).getD 0 ≤ 0
  · have herr : removeFromCart cart itemId = .error "Item not found in cart" := by
      rw [removeFromCart_eq, if_pos hle]
    refine ⟨by simp [herr, hle], fun _ => by unfold cartAfterRemove; rw [herr], ?_⟩
    intro v hv hpos
    rw [hv] at hle
    simp at hle
    omega
  · have hok : removeFromCart cart itemId
        = .ok (setEntry cart itemId ((lookup cart itemId).getD 0 - 1)) := by
      rw [removeFromCart_eq, if_neg hle]
    refine ⟨by simp [hok, hle], fun hc => absurd hc hle, ?_⟩
    intro v hv hpos
    rw [hok, hv]
    simp

/-- Witness for C5 at concrete carts: a zero-count entry fails and leaves the
cart unchanged; a positive entry is decremented. -/
theorem removeFromCart_spec_witness :
    removeFromCart [(3, (0 : Int))] 3 = .error "Item not found in cart" ∧
    cartAfterRemove [(3, (0 : Int))] 3 = [(3, (0 : Int))] ∧
    removeFromCart [(7, (2 : Int))] 7 = .ok [(7, (1 : Int))] := by
  refine ⟨(removeFromCart_spec [(3, 0)] 3).1.mpr (by decide),
          (removeFromCart_spec [(3, 0)] 3).2.1 (by decide), ?_⟩
  rw [(removeFromCart_spec [(7, 2)] 7).2.2 2 (by decide) (by decide)]
  rfl

/-- C9: both cart mutators leave every entry other than `itemId` untouched:
`addToCart` always, `removeFromCart` whenever it succeeds. -/
theorem cart_mutators_frame (cart : List (Nat × Int)) (itemId k : Nat)
    (h : k ≠ itemId) :
    lookup (addToCart cart itemId) k = lookup cart k ∧
    ∀ cart', removeFromCart cart itemId = .ok cart' →
      lookup cart' k = lookup cart k := by
  constructor
  · unfold addToCart
    split <;> exact lookup_setEntry_ne cart itemId k _ h
  · intro cart' hc
    unfold removeFromCart at hc
    split at hc
    · exact absurd hc (by simp)
    · cases hc
      exact lookup_setEntry_ne cart itemId k _ h

/-- Witness for C9 at a concrete cart: mutating item 3 does not change the
entry for item 5. -/
theorem cart_mutators_frame_witness :
    lookup (addToCart [(3, (1 : Int)), (5, (4 : Int))] 3) 5
      = lookup [(3, (1 : Int)), (5, (4 : Int))] 5 ∧
    lookup [(3, (0 : Int)), (5, (4 : Int))] 5
      = lookup [(3, (1 : Int)), (5, (4 : Int))] 5 :=
  ⟨(cart_mutators_frame [(3, 1), (5, 4)] 3 5 (by decide)).1,
   (cart_mutators_frame [(3, 1), (5, 4)] 3 5 (by decide)).2
     [(3, 0), (5, 4)] (by rfl)⟩

/-- C10: `/removeproduct` answers `{ success: true }` whatever the store and
requested id are, and when no product carries the requested id the store is
left unchanged — indistinguishable, in the response, from a real deletion. -/
theorem removeProduct_always_success (store : List Product) (pid : Int) :
    (removeProduct store pid).2 = { success := true } ∧
    ((∀ q ∈ store, q.id ≠ pid) → (removeProduct store pid).1 = store) := by
  refine ⟨rfl, fun h => ?_⟩
  unfold removeProduct
  exact List.eraseP_of_forall_not fun a ha => by simp [h a ha]

/-- A concrete catalog entry used by witnesses. -/
def sampleProduct : Product :=
  { id := 1, name := "tee", image := "tee.png", category := "men",
    new_price := 10, old_price := 20, date := 0, available := true }

/-- Witness for C10: removing the absent id 2 from a one-product store
answers `{ success: true }` and leaves the store unchanged. -/
theorem removeProduct_always_success_witness :
    (removeProduct [sampleProduct] 2).2 = { success := true } ∧
    (removeProduct [sampleProduct] 2).1 = [sampleProduct] :=
  ⟨(removeProduct_always_success [sampleProduct] 2).1,
   (removeProduct_always_success [sampleProduct] 2).2 (by decide)⟩

theorem lookup_append (l₁ l₂ : List (Nat × Int)) (k : Nat) :
    lookup (l₁ ++ l₂) k =
      match lookup l₁ k with
      | some v => some v
      | none => lookup l₂ k := by
  induction l₁ with
  | nil => rfl
  | cons a t ih =>
    rw [List.cons_append]
    by_cases h : a.1 = k
    · simp [lookup, h]
    · simpa [lookup, h] using ih

theorem lookup_rangeZero (n i : Nat) :
    lookup ((List.range n).map fun j => (j, (0 : Int))) i =
      if i < n then some 0 else none := by
  induction n with
  | zero => simp [lookup]
  | succ m ih =>
    rw [List.range_succ, List.map_append, lookup_append, ih]
    by_cases h₁ : i < m
    · simp [h₁, Nat.lt_succ_of_lt h₁]
    · by_cases h₂ : i = m
      · subst h₂
        simp [lookup, Nat.lt_succ_self]
      · have : ¬ i < m + 1 := by omega
        simp [h₁, h₂, this, lookup, Ne.symm h₂]

/-- C2: a token issued for account `id` at time `t` verifies to `id` at any
time before the 1-hour expiry, and once more than 1 hour has elapsed
verification fails `expired` — which the `fetchUser` middleware surfaces with
the same 401 message as any invalid token. -/
theorem token_verify_roundtrip_and_expiry (key : String) (id t tOk tExp : Nat)
    (env : EnvConfig) (hOk : tOk < t + 3600) (hExp : t + 3600 < tExp) :
    jwtVerify key (jwtSign key id t) tOk = .ok id ∧
    jwtVerify key (jwtSign key id t) tExp = .error .expired ∧
    fetchUser env (some (jwtSign "secret" id t)) tExp
      = .error "Please authenticate using a valid token" := by
  have hnot : ¬ tExp < t + 3600 := by omega
  refine ⟨by simp [jwtVerify, jwtSign, hOk], by simp [jwtVerify, jwtSign, hnot], ?_⟩
  have hver : jwtVerify "secret" (jwtSign "secret" id t) tExp = .error .expired := by
    simp [jwtVerify, jwtSign, hnot]
  simp [fetchUser, hver]

/-- Witness for C2: a token issued at time 0 verifies immediately and is
rejected as expired at time 3601. -/
theorem token_verify_roundtrip_and_expiry_witness :
    jwtVerify "secret" (jwtSign "secret" 42 0) 0 = .ok 42 ∧
    jwtVerify "secret" (jwtSign "secret" 42 0) 3601 = .error .expired ∧
    fetchUser { JWT_SECRET := "k1", ENCRYPTION_SECRET := "k2" }
        (some (jwtSign "secret" 42 0)) 3601
      = .error "Please authenticate using a valid token" :=
  token_verify_roundtrip_and_expiry "secret" 42 0 0 3601
    { JWT_SECRET := "k1", ENCRYPTION_SECRET := "k2" }
    (by decide) (by decide)

/-- C3: contrary to the spec, every handler is insensitive to the configured
secrets: `/signup`, `/login` and `fetchUser` behave identically under any two
configurations, because the source passes the string literals `"Secret key"`
(lines 195, 233) and `'secret'` (lines 209, 240, 261) instead of
`encryptionSecret` / `jwtSecret` loaded from `.env` at lines 26-27. -/
theorem handlers_ignore_configured_secrets (env₁ env₂ : EnvConfig)
    (store : List Account) (name email password : String) (now : Nat)
    (header : Option Token) (cred : List Nat) :
    signup env₁ store name email password now
      = signup env₂ store name email password now ∧
    login env₁ store email password now = login env₂ store email password now ∧
    fetchUser env₁ header now = fetchUser env₂ header now ∧
    obfuscate password "Secret key"
      = obfuscateBytes (strBytes "Secret key") 0 (strBytes password) ∧
    recover cred "Secret key"
      = bytesStr (recoverBytes (strBytes "Secret key") 0 cred) :=
  ⟨rfl, rfl, rfl, rfl, rfl⟩

/-- C6: `/signup` with an email that already belongs to an account answers
the conflict error `"Email is already registered!"` and leaves the account
store unchanged. -/
theorem signup_email_taken (env : EnvConfig) (store : List Account)
    (name email password : String) (now : Nat)
    (h : (store.any fun a => a.email == email) = true) :
    signup env store name email password now
      = .error "Email is already registered!" ∧
    storeAfterSignup env store name email password now = store := by
  have hs : signup env store name email password now
      = .error "Email is already registered!" := by
    unfold signup
    simp [h]
  refine ⟨hs, ?_⟩
  unfold storeAfterSignup
  rw [hs]

/-- A concrete registered account used by witnesses. -/
def sampleAccount : Account :=
  { id := 0, name := "Al", email := "al@shop.test",
    password := obfuscate "hunter2" "Secret key", cartData := seedCart }

/-- Witness for C6: signing up a second time with `sampleAccount`'s email
fails with the conflict error and the one-account store is unchanged. -/
theorem signup_email_taken_witness :
    signup { JWT_SECRET := "k1", ENCRYPTION_SECRET := "k2" } [sampleAccount]
        "Bea" "al@shop.test" "pw2" 9
      = .error "Email is already registered!" ∧
    storeAfterSignup { JWT_SECRET := "k1", ENCRYPTION_SECRET := "k2" }
        [sampleAccount] "Bea" "al@shop.test" "pw2" 9
      = [sampleAccount] :=
  signup_email_taken { JWT_SECRET := "k1", ENCRYPTION_SECRET := "k2" }
    [sampleAccount] "Bea" "al@shop.test" "pw2" 9 (by decide)

/-- The account document persisted by a successful `/signup` (lines 198-206):
password stored obfuscated under the literal key, cart freshly seeded. -/
def signedUpAccount (store : List Account) (name email password : String) :
    Account :=
  { id := store.length, name := name, email := email,
    password := obfuscate password "Secret key", cartData := seedCart }

/-- C7: a successful signup seeds the cart with exactly the 100 entries
`0 ↦ 0, …, 99 ↦ 0`, and an immediate login with the same credentials
succeeds and returns that freshly seeded cart. -/
theorem signup_then_login (env : EnvConfig) (store : List Account)
    (name email password : String) (t₁ t₂ : Nat)
    (h : (store.any fun a => a.email == email) = false) :
    signup env store name email password t₁
      = .ok (store ++ [signedUpAccount store name email password],
          { token := jwtSign "secret" store.length t₁, cartData := seedCart }) ∧
    seedCart.length = 100 ∧
    (∀ i : Nat, lookup seedCart i = if i < 100 then some 0 else none) ∧
    login env (store ++ [signedUpAccount store name email password])
        email password t₂
      = .ok { token := jwtSign "secret" store.length t₂, cartData := seedCart } := by
  refine ⟨?_, by simp [seedCart], fun i => lookup_rangeZero 100 i, ?_⟩
  · unfold signup
    simp [h, signedUpAccount]
  · unfold login
    have hnone : store.find? (fun a => a.email == email) = none := by
      rw [List.find?_eq_none]
      intro x hx
      simp only [List.any_eq_false] at h
      exact h x hx
    rw [List.find?_append, hnone, Option.none_or]
    simp [List.find?, signedUpAccount, recover_obfuscate]

/-- Witness for C7: signup on an empty store followed by login with the same
credentials, both evaluated at concrete inputs. -/
theorem signup_then_login_witness :
    signup { JWT_SECRET := "k1", ENCRYPTION_SECRET := "k2" } []
        "Al" "al@shop.test" "pw" 0
      = .ok ([signedUpAccount [] "Al" "al@shop.test" "pw"],
          { token := jwtSign "secret" 0 0, cartData := seedCart }) ∧
    login { JWT_SECRET := "k1", ENCRYPTION_SECRET := "k2" }
        [signedUpAccount [] "Al" "al@shop.test" "pw"] "al@shop.test" "pw" 5
      = .ok { token := jwtSign "secret" 0 5, cartData := seedCart } :=
  ⟨(signup_then_login { JWT_SECRET := "k1", ENCRYPTION_SECRET := "k2" } []
      "Al" "al@shop.test" "pw" 0 5 (by decide)).1,
   (signup_then_login { JWT_SECRET := "k1", ENCRYPTION_SECRET := "k2" } []
      "Al" "al@shop.test" "pw" 0 5 (by decide)).2.2.2⟩

/-! ## Catalog id assignment -/

theorem maxId_cons (a : Product) (t : List Product) :
    maxId (a :: t) = max a.id (maxId t) := rfl

theorem nextId_cons_cons (a b : Product) (t : List Product) :
    nextId (a :: b :: t) = nextId (b :: t) := by
  unfold nextId
  rw [List.getLast?_cons_cons]

theorem le_maxId_of_mem :
    ∀ (s : List Product) (p : Product), p ∈ s → p.id ≤ maxId s := by
  intro s
  induction s with
  | nil => intro p hp; cases hp
  | cons a t ih =>
    intro p hp
    rw [maxId_cons]
    rcases List.mem_cons.mp hp with h | h
    · subst h
      exact le_max_left _ _
    · exact le_trans (ih p h) (le_max_right _ _)

theorem lt_nextId_of_mem :
    ∀ (s : List Product), (s.Pairwise fun p q => p.id < q.id) →
      ∀ p ∈ s, p.id < nextId s := by
  intro s
  induction s with
  | nil => intro _ p hp; cases hp
  | cons a t ih =>
    intro hs p hp
    cases t with
    | nil =>
      rcases List.mem_cons.mp hp with h | h
      · subst h
        simp [nextId]
      · cases h
    | cons b t' =>
      rw [nextId_cons_cons]
      obtain ⟨ha, ht⟩ := List.pairwise_cons.mp hs
      rcases List.mem_cons.mp hp with h | h
      · subst h
        have hab : p.id < b.id := ha b (List.mem_cons_self b t')
        have hb : b.id < nextId (b :: t') := ih ht b (List.mem_cons_self b t')
        omega
      · exact ih ht p h

theorem one_le_nextId (s : List Product)
    (hpos : ∀ p ∈ s, (1 : Int) ≤ p.id) : 1 ≤ nextId s := by
  unfold nextId
  cases h : s.getLast? with
  | none => decide
  | some p =>
    have h1 := hpos p (List.mem_of_getLast?_eq_some h)
    show (1 : Int) ≤ p.id + 1
    omega

theorem nextId_eq_maxId_succ :
    ∀ (s : List Product), (s.Pairwise fun p q => p.id < q.id) →
      (∀ p ∈ s, (1 : Int) ≤ p.id) → nextId s = maxId s + 1 := by
  intro s
  induction s with
  | nil => intro _ _; decide
  | cons a t ih =>
    intro hs hpos
    cases t with
    | nil =>
      rw [maxId_cons]
      have h1 : (1 : Int) ≤ a.id := hpos a (List.mem_cons_self a [])
      have hm : max a.id (maxId []) = a.id := by
        have hz : maxId [] = 0 := rfl
        rw [hz]
        exact max_eq_left (by omega)
      rw [hm]
      simp [nextId]
    | cons b t' =>
      obtain ⟨ha, ht⟩ := List.pairwise_cons.mp hs
      have hpos' : ∀ p ∈ b :: t', (1 : Int) ≤ p.id :=
        fun p hp => hpos p (List.mem_cons_of_mem a hp)
      rw [nextId_cons_cons, ih ht hpos', maxId_cons a (b :: t')]
      have hb : b.id ≤ maxId (b :: t') :=
        le_maxId_of_mem (b :: t') b (List.mem_cons_self b t')
      have hab : a.id < b.id := ha b (List.mem_cons_self b t')
      rw [max_eq_right (by omega : a.id ≤ maxId (b :: t'))]

/-- Invariant of every catalog state reachable through the endpoints: product
ids are strictly increasing in insertion order and at least 1. -/
theorem catalog_invariant {s : List Product} (h : CatalogReachable s) :
    (s.Pairwise fun p q => p.id < q.id) ∧ ∀ p ∈ s, (1 : Int) ≤ p.id := by
  induction h with
  | nil => exact ⟨List.Pairwise.nil, by intro p hp; cases hp⟩
  | add store body now hr ih =>
    obtain ⟨hp, hpos⟩ := ih
    constructor
    · unfold addProduct
      rw [List.pairwise_append]
      refine ⟨hp, List.pairwise_singleton _ _, ?_⟩
      intro p hps q hq
      rw [List.mem_singleton] at hq
      subst hq
      exact lt_nextId_of_mem store hp p hps
    · intro p hp'
      unfold addProduct at hp'
      rcases List.mem_append.mp hp' with hm | hm
      · exact hpos p hm
      · rw [List.mem_singleton] at hm
        subst hm
        exact one_le_nextId store hpos
  | remove store pid hr ih =>
    obtain ⟨hp, hpos⟩ := ih
    have hsub : List.Sublist (removeProduct store pid).1 store := by
      unfold removeProduct
      exact List.eraseP_sublist store
    exact ⟨List.Pairwise.sublist hsub hp, fun p hm => hpos p (hsub.subset hm)⟩

/-- The product the claim says `/addproduct` inserts: the one whose id is
`max(ids of existing products) + 1`. -/
def insertedProduct (s : List Product) (body : ProductBody) (now : Nat) :
    Product :=
  { id := maxId s + 1, name := body.name, image := body.image,
    category := body.category, new_price := body.new_price,
    old_price := body.old_price, date := now, available := true }

/-- C8: on every catalog state reachable through the endpoints (arbitrary
inserts and deletions), `/addproduct` assigns the new product the id
`max(existing ids) + 1` (1 on an empty catalog, with `maxId [] = 0`), which
is strictly greater than every existing id. -/
theorem addProduct_assigns_max_succ (s : List Product) (body : ProductBody)
    (now : Nat) (h : CatalogReachable s) :
    nextId s = maxId s + 1 ∧
    (∀ p ∈ s, p.id < nextId s) ∧
    addProduct s body now = s ++ [insertedProduct s body now] := by
  obtain ⟨hp, hpos⟩ := catalog_invariant h
  have heq : nextId s = maxId s + 1 := nextId_eq_maxId_succ s hp hpos
  refine ⟨heq, lt_nextId_of_mem s hp, ?_⟩
  unfold addProduct insertedProduct
  rw [heq]

/-- A concrete request body used by witnesses. -/
def sampleBody : ProductBody :=
  { name := "tee", image := "tee.png", category := "men",
    new_price := 10, old_price := 20 }

/-- Witness for C8 on a catalog reached by two inserts and one deletion:
the next assigned id is `maxId + 1`. -/
theorem addProduct_assigns_max_succ_witness :
    nextId (removeProduct (addProduct (addProduct [] sampleBody 0) sampleBody 1) 1).1
      = maxId (removeProduct (addProduct (addProduct [] sampleBody 0) sampleBody 1) 1).1 + 1 :=
  (addProduct_assigns_max_succ _ sampleBody 2
    (CatalogReachable.remove _ 1
      (CatalogReachable.add _ sampleBody 1
        (CatalogReachable.add [] sampleBody 0 CatalogReachable.nil)))).1

end SSRStyles
